import Mathlib

/-!
Shallow embedding of `highway_env/envs/highway_env.py` (classes `HighwayEnv` and
`HighwayEnvFast`): the reward evaluator `_rewards` / `_reward`, the lifecycle
predicates `_is_terminated` / `_is_truncated`, the vehicle-budget split
`near_split`, and the fast variant's collision-check disabling step.

Numbers are modelled as rationals (`ℚ`).  Computations that can raise a Python
`ZeroDivisionError` (the linear map `lmap` on a zero-width source interval, and
the `angular_momentum / angular_velocity` quotient in the torque computation)
are modelled as `Option`-valued, with `none` standing for the raised exception.
-/

/-- `np.clip(v, lo, hi)` on scalars: `min(max(v, lo), hi)`. -/
def clip (v lo hi : ℚ) : ℚ := min (max v lo) hi

/-- Modelled from the spec: `utils.lmap` (in `highway_env/utils.py`, not part of
the excerpt) linearly maps `v` from the interval `x` onto the interval `y`,
per the spec's formula `(v - min) / (max - min)` rescaled onto `y`;
a zero-width source interval makes the division raise, modelled as `none`. -/
def lmap (v : ℚ) (x y : ℚ × ℚ) : Option ℚ :=
  if x.2 - x.1 = 0 then none
  else some (y.1 + (v - x.1) * (y.2 - y.1) / (x.2 - x.1))

/-- Modelled from the spec: `near_split(x, num_bins)` (in `highway_env/utils.py`,
not part of the excerpt) splits a count `x` into `num_bins` bins as evenly as
possible, the remainder going one-per-bin to the first bins. -/
def near_split (x : ℕ) (num_bins : ℕ) : List ℕ :=
  List.replicate (x % num_bins) (x / num_bins + 1) ++
    List.replicate (num_bins - x % num_bins) (x / num_bins)

/-- The ego vehicle state read by the reward evaluator and the lifecycle
predicates: `self.vehicle.speed`, `self.vehicle.crashed`, `self.vehicle.on_road`. -/
structure Vehicle where
  speed : ℚ
  crashed : Bool
  on_road : Bool
deriving DecidableEq

/-- The environment state read by `_rewards`, `_reward`, `_is_terminated` and
`_is_truncated`.  `frontGap` / `rearGap` model
`self.vehicle.lane_distance_to(front_vehicle)` / `(rear_vehicle)` where the
neighbour returned by `self.road.neighbour_vehicles` may be absent (`none`);
`action0` is the stored `self.action[0]` read by the torque computation;
`time` is `self.time`. -/
structure EnvState where
  vehicle : Vehicle
  frontGap : Option ℚ
  rearGap : Option ℚ
  action0 : ℚ
  time : ℚ
deriving DecidableEq

/-- The configuration keys read by the code under verification.  The five
reward-term weights share their names with the dictionary keys of the reward
breakdown; `high_speed_reward` and `right_lane_reward` are only read as
normalization bounds. -/
structure Config where
  speed_reward : ℚ
  collision_reward : ℚ
  safe_distance_reward : ℚ
  on_road_reward : ℚ
  torque_reward : ℚ
  high_speed_reward : ℚ
  right_lane_reward : ℚ
  reward_speed_range : ℚ × ℚ
  front_distance_range : ℚ × ℚ
  rear_distance_range : ℚ × ℚ
  normalize_reward : Bool
  offroad_terminal : Bool
  duration : ℚ
deriving DecidableEq

/-- The dictionary view of the configuration used by
`self.config.get(name, 0)` in `_reward`: looking up a reward-term name returns
the configured weight, and `none` models a key absent from the dictionary.
Only the keys that `_reward` can ever look up are listed. -/
def Config.weightOf (cfg : Config) : String → Option ℚ := fun name =>
  if name = "speed_reward" then some cfg.speed_reward
  else if name = "collision_reward" then some cfg.collision_reward
  else if name = "safe_distance_reward" then some cfg.safe_distance_reward
  else if name = "on_road_reward" then some cfg.on_road_reward
  else if name = "torque_reward" then some cfg.torque_reward
  else if name = "high_speed_reward" then some cfg.high_speed_reward
  else if name = "right_lane_reward" then some cfg.right_lane_reward
  else none

/-- The numeric values of `HighwayEnv.default_config` for the keys of `Config`. -/
def default_config : Config where
  speed_reward := 25
  collision_reward := -50
  safe_distance_reward := 5
  on_road_reward := 20
  torque_reward := 0
  high_speed_reward := 2/5
  right_lane_reward := 1/10
  reward_speed_range := (-40, 40)
  front_distance_range := (0, 30)
  rear_distance_range := (0, 30)
  normalize_reward := true
  offroad_terminal := false
  duration := 40

/-- The per-step reward breakdown returned by `_rewards`: a dictionary with
exactly the five keys below, in insertion order. -/
structure RewardBreakdown where
  speed_reward : ℚ
  collision_reward : ℚ
  safe_distance_reward : ℚ
  on_road_reward : ℚ
  torque_reward : ℚ
deriving DecidableEq

/-- The breakdown dictionary as its ordered list of `(key, value)` items,
mirroring `rewards.items()` in `_reward`. -/
def RewardBreakdown.toList (b : RewardBreakdown) : List (String × ℚ) :=
  [("speed_reward", b.speed_reward),
   ("collision_reward", b.collision_reward),
   ("safe_distance_reward", b.safe_distance_reward),
   ("on_road_reward", b.on_road_reward),
   ("torque_reward", b.torque_reward)]

/-- `sum(self.config.get(name, 0) * reward for name, reward in rewards.items())`:
a missing key contributes its value times the default `0`. -/
def rewardSum (w : String → Option ℚ) (items : List (String × ℚ)) : ℚ :=
  (items.map (fun p => (w p.1).getD 0 * p.2)).sum

/-- Modelled from the spec: `lane_distance_to` on an absent neighbour
(`neighbour_vehicles` returned no vehicle on that side; the method lives in
`highway_env/vehicle/kinematics.py`, not part of the excerpt).  Per the spec,
the absent neighbour's distance is treated as at-or-beyond the configured
range maximum (30), rather than raising. -/
def lane_distance_to (gap : Option ℚ) : ℚ := gap.getD 30

/-- `minimum_safe_distance = 30` in `_rewards`. -/
def minimum_safe_distance : ℚ := 30

/-- The `### Safety ###` distance block of `_rewards`: cap the forward gap at
`minimum_safe_distance`, take the absolute value of the rear gap, map each
linearly onto `[0, 0.5]` from its configured range, and sum. -/
def safe_distance (cfg : Config) (frontGap rearGap : Option ℚ) : Option ℚ := do
  let front0 := lane_distance_to frontGap
  let rear0 := lane_distance_to rearGap
  let front1 := if front0 > minimum_safe_distance then minimum_safe_distance else front0
  let rear1 := |rear0|
  let f ← lmap front1 cfg.front_distance_range (0, 1/2)
  let r ← lmap rear1 cfg.rear_distance_range (0, 1/2)
  some (f + r)

/-- `ACCELERATION_RANGE = (-5, 5.0)`. -/
def ACCELERATION_RANGE : ℚ × ℚ := (-5, 5)

/-- `vehicle_mass = 1458` kg. -/
def vehicle_mass : ℚ := 1458

/-- `rolling_resistance_coefficient = 0.012`. -/
def rolling_resistance_coefficient : ℚ := 12/1000

/-- `gravity = 9.81` m/s². -/
def gravity : ℚ := 981/100

/-- `wheel_radius = 0.33` m. -/
def wheel_radius : ℚ := 33/100

/-- `wheel_mass = 20` kg. -/
def wheel_mass : ℚ := 20

/-- `normal_force = vehicle_mass * gravity`. -/
def normal_force : ℚ := vehicle_mass * gravity

/-- `rolling_resistance = rolling_resistance_coefficient * normal_force`. -/
def rolling_resistance : ℚ := rolling_resistance_coefficient * normal_force

/-- `load_torque = rolling_resistance * wheel_radius`. -/
def load_torque : ℚ := rolling_resistance * wheel_radius

/-- `moment_of_inertia = angular_momentum / angular_velocity` with
`angular_momentum = wheel_mass * speed * wheel_radius` and
`angular_velocity = speed / wheel_radius`.  The quotient is an unguarded
division: when the angular velocity is `0` (speed `0`) the Python code divides
zero by zero, modelled as `none`. -/
def moment_of_inertia (speed : ℚ) : Option ℚ :=
  let angular_momentum := wheel_mass * speed * wheel_radius
  let angular_velocity := speed / wheel_radius
  if angular_velocity = 0 then none
  else some (angular_momentum / angular_velocity)

/-- The `### Energy Saving ###` block of `_rewards`:
`acceleration = lmap(self.action[0], [0, 1], ACCELERATION_RANGE)`,
`angular_acceleration = acceleration / wheel_radius`,
`acceleration_torque = moment_of_inertia * angular_acceleration`,
`total_torque = acceleration_torque + load_torque`. -/
def total_torque (speed action0 : ℚ) : Option ℚ := do
  let acceleration ← lmap action0 (0, 1) ACCELERATION_RANGE
  let moi ← moment_of_inertia speed
  let angular_acceleration := acceleration / wheel_radius
  some (moi * angular_acceleration + load_torque)

/-- `HighwayEnv._rewards(self, action)`.  The `action` parameter is received
but the body only reads the environment state (including the stored
`self.action`); `none` models a raised exception. -/
def _rewards (cfg : Config) (s : EnvState) (action : ℚ) : Option RewardBreakdown := do
  let scaled_speed ← lmap s.vehicle.speed cfg.reward_speed_range (0, 1)
  let sd ← safe_distance cfg s.frontGap s.rearGap
  let tt ← total_torque s.vehicle.speed s.action0
  some {
    speed_reward := clip scaled_speed 0 1
    collision_reward := if s.vehicle.crashed then 1 else 0
    safe_distance_reward := clip sd 0 1
    on_road_reward := if s.vehicle.on_road then 1 else 0
    torque_reward := clip tt 0 1 }

/-- `HighwayEnv._reward(self, action)`: the config-weighted sum of the
breakdown, optionally normalized by
`utils.lmap(reward, [collision_reward, high_speed_reward + right_lane_reward], [0, 1])`. -/
def _reward (cfg : Config) (s : EnvState) (action : ℚ) : Option ℚ := do
  let rewards ← _rewards cfg s action
  let reward := rewardSum cfg.weightOf rewards.toList
  if cfg.normalize_reward then
    lmap reward (cfg.collision_reward, cfg.high_speed_reward + cfg.right_lane_reward) (0, 1)
  else
    some reward

/-- `HighwayEnv._is_terminated`: crash, or off-road when `offroad_terminal`. -/
def _is_terminated (cfg : Config) (s : EnvState) : Bool :=
  s.vehicle.crashed || (cfg.offroad_terminal && !s.vehicle.on_road)

/-- `HighwayEnv._is_truncated`: `self.time >= self.config["duration"]`. -/
def _is_truncated (cfg : Config) (s : EnvState) : Bool :=
  decide (cfg.duration ≤ s.time)

/-- A vehicle on the road as seen by `HighwayEnvFast._create_vehicles`: its
identity and its `check_collisions` flag. -/
structure RoadVehicle where
  id : ℕ
  check_collisions : Bool
deriving DecidableEq

/-- The post-construction loop of `HighwayEnvFast._create_vehicles`: for every
vehicle of `road.vehicles` not in `self.controlled_vehicles`, set
`check_collisions = False`; nothing else is touched. -/
def disable_uncontrolled (road : List RoadVehicle) (controlled : List ℕ) : List RoadVehicle :=
  road.map (fun v => if v.id ∈ controlled then v else { v with check_collisions := false })

/-- A weight dictionary from which the key `speed_reward` is absent, the other
weight keys holding their `default_config` values. -/
def missing_speed_weights : String → Option ℚ := fun name =>
  if name = "speed_reward" then none else default_config.weightOf name

/-- A weight dictionary from which the key `collision_reward` is absent, the
other weight keys holding their `default_config` values. -/
def missing_collision_weights : String → Option ℚ := fun name =>
  if name = "collision_reward" then none else default_config.weightOf name

/-- The reward combination of `_reward` (lines 110-117) over a raw numeric
configuration dictionary (`none` = key absent), keeping the source's two
access styles: the five term weights are read with `self.config.get(name, 0)`,
so a missing weight key silently contributes weight `0`, while with
normalization on the bounds are read with bracket indexing
(`self.config["collision_reward"]`, then `["high_speed_reward"]` and
`["right_lane_reward"]`), which raises `KeyError` on a missing key, modelled
as `none`.  The boolean `normalize` stands for the non-numeric
`self.config["normalize_reward"]` entry; `b` is the breakdown already
returned by `_rewards`. -/
def dict_reward (cfg : String → Option ℚ) (normalize : Bool) (b : RewardBreakdown) : Option ℚ :=
  let reward := rewardSum cfg b.toList
  if normalize then do
    let lo ← cfg ("collision_reward")
    let hs ← cfg ("high_speed_reward")
    let rl ← cfg ("right_lane_reward")
    lmap reward (lo, hs + rl) (0, 1)
  else
    some reward

/-- Inversion for a successful `_rewards` run: the three fallible
sub-computations succeeded and the breakdown is built from their results. -/
theorem rewards_some_elim (cfg : Config) (s : EnvState) (a : ℚ) (b : RewardBreakdown)
    (hb : _rewards cfg s a = some b) :
    ∃ ss sd tt, lmap s.vehicle.speed cfg.reward_speed_range (0, 1) = some ss ∧
      safe_distance cfg s.frontGap s.rearGap = some sd ∧
      total_torque s.vehicle.speed s.action0 = some tt ∧
      b = { speed_reward := clip ss 0 1
            collision_reward := if s.vehicle.crashed then 1 else 0
            safe_distance_reward := clip sd 0 1
            on_road_reward := if s.vehicle.on_road then 1 else 0
            torque_reward := clip tt 0 1 } := by
  unfold _rewards at hb
  cases h1 : lmap s.vehicle.speed cfg.reward_speed_range (0, 1) with
  | none => rw [h1] at hb; simp at hb
  | some ss =>
  rw [h1] at hb
  cases h2 : safe_distance cfg s.frontGap s.rearGap with
  | none => rw [h2] at hb; simp at hb
  | some sd =>
  rw [h2] at hb
  cases h3 : total_torque s.vehicle.speed s.action0 with
  | none => rw [h3] at hb; simp at hb
  | some tt =>
  rw [h3] at hb
  simp only [Option.bind_eq_bind, Option.some_bind, Option.some.injEq] at hb
  exact ⟨ss, sd, tt, rfl, rfl, rfl, hb.symm⟩

/-- `lmap` succeeds on a source interval of nonzero width. -/
theorem lmap_isSome (v : ℚ) (x y : ℚ × ℚ) (h : x.2 - x.1 ≠ 0) :
    lmap v x y = some (y.1 + (v - x.1) * (y.2 - y.1) / (x.2 - x.1)) := by
  unfold lmap
  rw [if_neg h]

/-- Under the default distance ranges, the safe-distance computation always
succeeds, whatever the two (possibly absent) gaps are. -/
theorem safe_distance_default_isSome (fg rg : Option ℚ) :
    ∃ r, safe_distance default_config fg rg = some r := by
  norm_num [safe_distance, default_config, lmap]

/-- At any nonzero speed the torque computation succeeds, and its
moment-of-inertia factor collapses to `wheel_mass * wheel_radius ^ 2`. -/
theorem total_torque_some (s a : ℚ) (h : s ≠ 0) :
    total_torque s a = some ((wheel_mass * wheel_radius ^ 2) *
      ((ACCELERATION_RANGE.1 + (a - 0) * (ACCELERATION_RANGE.2 - ACCELERATION_RANGE.1) / (1 - 0)) / wheel_radius)
      + load_torque) := by
  have hmoi : moment_of_inertia s = some (wheel_mass * wheel_radius ^ 2) := by
    unfold moment_of_inertia wheel_mass wheel_radius
    rw [if_neg (by simp [div_eq_zero_iff, h])]
    congr 1
    field_simp
    ring
  unfold total_torque
  rw [lmap_isSome _ _ _ (by norm_num [ACCELERATION_RANGE]), Option.bind_eq_bind,
    Option.some_bind, hmoi, Option.some_bind]

/-- Under the default configuration, `_rewards` succeeds at any nonzero speed. -/
theorem rewards_default_some (s : EnvState) (a : ℚ) (h : s.vehicle.speed ≠ 0) :
    ∃ b, _rewards default_config s a = some b := by
  obtain ⟨sd, hsd⟩ := safe_distance_default_isSome s.frontGap s.rearGap
  unfold _rewards
  rw [show default_config.reward_speed_range = (-40, 40) from rfl,
    lmap_isSome _ _ _ (by norm_num), Option.bind_eq_bind, Option.some_bind, hsd,
    Option.some_bind, total_torque_some _ _ h, Option.some_bind]
  exact ⟨_, rfl⟩

/-- Claim C1: the combined reward equals the configured-weight-weighted sum of
the five named breakdown terms; when `normalize_reward` is set it is linearly
remapped from `[collision_reward, high_speed_reward + right_lane_reward]` onto
`[0, 1]`; and for a crashed state whose five term weights are all `0` except
`collision_reward = -50`, the post-normalization reward is exactly `0`. -/
theorem reward_weighted_sum_and_normalization (cfg : Config) (s : EnvState) (a : ℚ)
    (b : RewardBreakdown) (hb : _rewards cfg s a = some b) :
    (rewardSum cfg.weightOf b.toList =
      cfg.speed_reward * b.speed_reward + cfg.collision_reward * b.collision_reward +
      cfg.safe_distance_reward * b.safe_distance_reward + cfg.on_road_reward * b.on_road_reward +
      cfg.torque_reward * b.torque_reward) ∧
    (cfg.normalize_reward = true →
      _reward cfg s a = lmap (rewardSum cfg.weightOf b.toList)
        (cfg.collision_reward, cfg.high_speed_reward + cfg.right_lane_reward) (0, 1)) ∧
    (cfg.normalize_reward = false → _reward cfg s a = some (rewardSum cfg.weightOf b.toList)) ∧
    (s.vehicle.crashed = true → cfg.speed_reward = 0 → cfg.safe_distance_reward = 0 →
      cfg.on_road_reward = 0 → cfg.torque_reward = 0 → cfg.collision_reward = -50 →
      cfg.normalize_reward = true → cfg.high_speed_reward + cfg.right_lane_reward ≠ -50 →
      _reward cfg s a = some 0) := by
  have hsum : rewardSum cfg.weightOf b.toList =
      cfg.speed_reward * b.speed_reward + cfg.collision_reward * b.collision_reward +
      cfg.safe_distance_reward * b.safe_distance_reward + cfg.on_road_reward * b.on_road_reward +
      cfg.torque_reward * b.torque_reward := by
    simp +decide only [rewardSum, RewardBreakdown.toList, Config.weightOf, List.map_cons,
      List.map_nil, List.sum_cons, List.sum_nil, Option.getD_some, if_true, if_false,
      reduceIte]
    ring
  refine ⟨hsum, ?_, ?_, ?_⟩
  · intro hn
    simp only [_reward, hb, Option.bind_eq_bind, Option.some_bind, hn, if_true]
  · intro hn
    simp only [_reward, hb, Option.bind_eq_bind, Option.some_bind, hn, Bool.false_eq_true,
      if_false]
  · intro hcr h1 h2 h3 h4 h5 hn h6
    obtain ⟨ss, sd, tt, -, -, -, rfl⟩ := rewards_some_elim cfg s a b hb
    simp only [_reward, hb, Option.bind_eq_bind, Option.some_bind, hn, if_true]
    rw [hsum]
    simp only [hcr, if_true, h1, h2, h3, h4, h5]
    rw [lmap_isSome _ _ _ (fun hc => h6 (by simp at hc; linarith))]
    norm_num

/-- Witness for C1: a crashed state under weights `(0, -50, 0, 0, 0)` with the
default normalization bounds gets post-normalization reward exactly `0`. -/
theorem reward_weighted_sum_witness :
    _reward { default_config with
              speed_reward := 0
              safe_distance_reward := 0
              on_road_reward := 0
              torque_reward := 0 }
      { vehicle := { speed := 1, crashed := true, on_road := true },
        frontGap := none, rearGap := none, action0 := 1/2, time := 0 } 0 = some 0 :=
  (reward_weighted_sum_and_normalization _ _ 0 ⟨41/80, 1, 1, 1, 1⟩ (by
    simp +decide only [_rewards, lmap, safe_distance, total_torque, moment_of_inertia,
      lane_distance_to, minimum_safe_distance, ACCELERATION_RANGE, wheel_radius, wheel_mass,
      load_torque, rolling_resistance, rolling_resistance_coefficient, normal_force,
      vehicle_mass, gravity, clip, default_config, Option.getD_none, Option.bind_eq_bind,
      Option.none_bind, Option.some_bind]
    norm_num)).2.2.2 rfl rfl rfl rfl rfl rfl rfl (by norm_num [default_config])

/-- Claim C2 (code bug): the torque computation is NOT guarded at ego speed
`0`: the `angular_momentum / angular_velocity` quotient divides zero by zero,
so the computation raises instead of returning a zero torque reward; the whole
reward breakdown is undefined at speed `0`. -/
theorem torque_unguarded_divzero_at_speed_zero :
    moment_of_inertia 0 = none ∧
    total_torque 0 (1/2) = none ∧
    _rewards default_config
      { vehicle := { speed := 0, crashed := false, on_road := true },
        frontGap := none, rearGap := none, action0 := 1/2, time := 0 } 0 = none := by
  refine ⟨by simp [moment_of_inertia], ?_, ?_⟩
  · simp [total_torque, moment_of_inertia, lmap, ACCELERATION_RANGE]
  · simp [_rewards, total_torque, moment_of_inertia, lmap, ACCELERATION_RANGE,
      safe_distance, lane_distance_to, minimum_safe_distance, default_config, clip]

/-- Claim C3: the reward evaluator does not fail when the front neighbour, the
rear neighbour, or both are absent: under the default configuration the
breakdown is defined (for any nonzero speed, speed `0` failing for the
unrelated torque reason), the absent side's distance is treated exactly as the
range maximum `30`, and the corresponding `lmap` half takes its saturated value
`1/2` (both absent giving the saturated sum `1`). -/
theorem missing_neighbour_no_failure :
    (∀ (s : EnvState) (a : ℚ), (s.frontGap = none ∨ s.rearGap = none) →
      s.vehicle.speed ≠ 0 → (_rewards default_config s a).isSome = true) ∧
    (∀ fg rg : Option ℚ, (safe_distance default_config fg rg).isSome = true) ∧
    lane_distance_to none = 30 ∧
    lmap (lane_distance_to none) default_config.front_distance_range (0, 1/2) = some (1/2) ∧
    lmap |lane_distance_to none| default_config.rear_distance_range (0, 1/2) = some (1/2) ∧
    (∀ rg, safe_distance default_config none rg = safe_distance default_config (some 30) rg) ∧
    (∀ fg, safe_distance default_config fg none = safe_distance default_config fg (some 30)) ∧
    safe_distance default_config none none = some 1 := by
  refine ⟨?_, ?_, rfl, ?_, ?_, fun rg => rfl, fun fg => rfl, ?_⟩
  · intro s a _ hspeed
    obtain ⟨b, hb⟩ := rewards_default_some s a hspeed
    rw [hb]
    rfl
  · intro fg rg
    obtain ⟨r, hr⟩ := safe_distance_default_isSome fg rg
    rw [hr]
    rfl
  · norm_num [lmap, lane_distance_to, default_config]
  · norm_num [lmap, lane_distance_to, default_config]
  · norm_num [safe_distance, lane_distance_to, lmap, default_config, minimum_safe_distance]

/-- Witness for C3: with the front neighbour absent and speed `1`, the reward
breakdown is defined. -/
theorem missing_neighbour_no_failure_witness :
    (_rewards default_config
      { vehicle := { speed := 1, crashed := false, on_road := true },
        frontGap := none, rearGap := some (-4), action0 := 1/2, time := 0 } 0).isSome = true :=
  missing_neighbour_no_failure.1 _ 0 (Or.inl rfl) (by norm_num)

/-- Claim C4: the `safe_distance_reward` entry of any successful breakdown lies
in `[0, 1]`; it is `0` when both gaps are `0` (default ranges); and any forward
gap greater than `30` is treated as exactly `30` before the linear mapping. -/
theorem safe_distance_reward_bounds :
    (∀ (cfg : Config) (s : EnvState) (a : ℚ) (b : RewardBreakdown), _rewards cfg s a = some b →
      0 ≤ b.safe_distance_reward ∧ b.safe_distance_reward ≤ 1) ∧
    safe_distance default_config (some 0) (some 0) = some 0 ∧
    (∀ (cfg : Config) (rg : Option ℚ) (d : ℚ), minimum_safe_distance < d →
      safe_distance cfg (some d) rg = safe_distance cfg (some minimum_safe_distance) rg) := by
  refine ⟨?_, ?_, ?_⟩
  · intro cfg s a b hb
    obtain ⟨ss, sd, tt, -, -, -, rfl⟩ := rewards_some_elim cfg s a b hb
    exact ⟨le_min (le_max_right _ _) zero_le_one, min_le_right _ _⟩
  · norm_num [safe_distance, lane_distance_to, lmap, default_config, minimum_safe_distance]
  · intro cfg rg d hd
    rw [show minimum_safe_distance = (30 : ℚ) from rfl] at hd
    unfold safe_distance lane_distance_to minimum_safe_distance
    simp only [Option.getD_some, gt_iff_lt]
    rw [if_pos hd, if_neg (lt_irrefl (30 : ℚ))]

/-- Witness for C4: bounds at a concrete successful breakdown, and the cap at a
forward gap of `31`. -/
theorem safe_distance_reward_bounds_witness :
    (0 ≤ (RewardBreakdown.mk (41/80) 0 1 1 1).safe_distance_reward ∧
      (RewardBreakdown.mk (41/80) 0 1 1 1).safe_distance_reward ≤ 1) ∧
    safe_distance default_config (some 31) (some (-4)) =
      safe_distance default_config (some minimum_safe_distance) (some (-4)) :=
  ⟨safe_distance_reward_bounds.1 default_config
      { vehicle := { speed := 1, crashed := false, on_road := true },
        frontGap := none, rearGap := none, action0 := 1/2, time := 0 } 0 _ (by
    simp +decide only [_rewards, lmap, safe_distance, total_torque, moment_of_inertia,
      lane_distance_to, minimum_safe_distance, ACCELERATION_RANGE, wheel_radius, wheel_mass,
      load_torque, rolling_resistance, rolling_resistance_coefficient, normal_force,
      vehicle_mass, gravity, clip, default_config, Option.getD_none, Option.bind_eq_bind,
      Option.none_bind, Option.some_bind]
    norm_num),
   safe_distance_reward_bounds.2.2 default_config (some (-4)) 31 (by
    norm_num [minimum_safe_distance])⟩

/-- Claim C5: termination and truncation are pure boolean functions of the
current state: terminated iff crashed or (`offroad_terminal` and off-road), so
with `offroad_terminal` false an off-road non-crashed ego does not terminate;
truncated iff elapsed time is at least `duration`, and strictly earlier time is
not truncated. -/
theorem lifecycle_pure (cfg : Config) (s : EnvState) :
    (_is_terminated cfg s = true ↔
      s.vehicle.crashed = true ∨ (cfg.offroad_terminal = true ∧ s.vehicle.on_road = false)) ∧
    (cfg.offroad_terminal = false → s.vehicle.crashed = false → _is_terminated cfg s = false) ∧
    (_is_truncated cfg s = true ↔ cfg.duration ≤ s.time) ∧
    (s.time < cfg.duration → _is_truncated cfg s = false) := by
  unfold _is_terminated _is_truncated
  refine ⟨?_, ?_, by simp, ?_⟩
  · cases hc : s.vehicle.crashed <;> cases ho : cfg.offroad_terminal <;>
      cases hr : s.vehicle.on_road <;> simp
  · intro h1 h2
    rw [h1, h2]
    simp
  · intro h
    simp [not_le.2 h]

/-- Witness for C5: an off-road, non-crashed ego does not terminate under the
default configuration, and time `39` is not truncated against duration `40`. -/
theorem lifecycle_pure_witness :
    _is_terminated default_config
      { vehicle := { speed := 0, crashed := false, on_road := false },
        frontGap := none, rearGap := none, action0 := 0, time := 0 } = false ∧
    _is_truncated default_config
      { vehicle := { speed := 0, crashed := false, on_road := false },
        frontGap := none, rearGap := none, action0 := 0, time := 39 } = false :=
  ⟨(lifecycle_pure default_config _).2.1 rfl rfl,
   (lifecycle_pure default_config _).2.2.2 (by norm_num [default_config])⟩

/-- Claim C6: `near_split` sums to `n` for `bins ≥ 1`, any two bin sizes differ
by at most `1`, the list has `bins` entries with the remainder distributed to
the first bins, and the three given examples hold. -/
theorem near_split_spec :
    (∀ n bins : ℕ, 1 ≤ bins → (near_split n bins).sum = n) ∧
    (∀ n bins : ℕ, ∀ a ∈ near_split n bins, ∀ b ∈ near_split n bins, a ≤ b + 1) ∧
    (∀ n bins : ℕ, 1 ≤ bins → (near_split n bins).length = bins) ∧
    (∀ n bins : ℕ,
      (near_split n bins).take (n % bins) = List.replicate (n % bins) (n / bins + 1)) ∧
    near_split 50 1 = [50] ∧ near_split 7 3 = [3, 2, 2] ∧ near_split 0 2 = [0, 0] := by
  refine ⟨?_, ?_, ?_, ?_, by decide, by decide, by decide⟩
  · intro n bins h
    unfold near_split
    rw [List.sum_append, List.sum_replicate, List.sum_replicate, smul_eq_mul, smul_eq_mul]
    have h1 : n % bins < bins := Nat.mod_lt _ h
    have h2 : bins * (n / bins) + n % bins = n := Nat.div_add_mod n bins
    zify [h1.le]
    zify at h2
    linear_combination h2
  · intro n bins a ha b hb
    unfold near_split at ha hb
    rcases List.mem_append.1 ha with h | h <;> rcases List.mem_append.1 hb with h' | h' <;>
      rw [List.eq_of_mem_replicate h, List.eq_of_mem_replicate h'] <;> omega
  · intro n bins h
    unfold near_split
    rw [List.length_append, List.length_replicate, List.length_replicate]
    have h1 : n % bins < bins := Nat.mod_lt _ h
    omega
  · intro n bins
    unfold near_split
    rw [List.take_append_of_le_length (by rw [List.length_replicate]),
      List.take_of_length_le (by rw [List.length_replicate])]

/-- Witness for C6: the sum, spread and length properties at `n = 7`,
`bins = 3`. -/
theorem near_split_spec_witness :
    (near_split 7 3).sum = 7 ∧ (3 : ℕ) ≤ 2 + 1 ∧ (near_split 7 3).length = 3 :=
  ⟨near_split_spec.1 7 3 (by norm_num),
   near_split_spec.2.1 7 3 3 (by decide) 2 (by decide),
   near_split_spec.2.2.1 7 3 (by norm_num)⟩

/-- Claim C7: after the fast variant's post-construction step, every road
vehicle outside the controlled list has `check_collisions = false`, every
controlled vehicle keeps it `true` (it enters the step enabled), and nothing
else changes: the vehicles' identities and order are preserved. -/
theorem fast_variant_collisions (road : List RoadVehicle) (controlled : List ℕ)
    (hpre : ∀ v ∈ road, v.check_collisions = true) :
    (∀ v ∈ disable_uncontrolled road controlled, v.id ∉ controlled → v.check_collisions = false) ∧
    (∀ v ∈ disable_uncontrolled road controlled, v.id ∈ controlled → v.check_collisions = true) ∧
    (disable_uncontrolled road controlled).map RoadVehicle.id = road.map RoadVehicle.id := by
  refine ⟨?_, ?_, ?_⟩
  · intro v hv hnc
    obtain ⟨u, hu, huv⟩ := List.mem_map.1 hv
    by_cases h : u.id ∈ controlled
    · rw [if_pos h] at huv
      subst huv
      exact absurd h hnc
    · rw [if_neg h] at huv
      subst huv
      rfl
  · intro v hv hc
    obtain ⟨u, hu, huv⟩ := List.mem_map.1 hv
    by_cases h : u.id ∈ controlled
    · rw [if_pos h] at huv
      subst huv
      exact hpre u hu
    · rw [if_neg h] at huv
      subst huv
      exact absurd hc h
  · unfold disable_uncontrolled
    rw [List.map_map]
    congr 1
    funext v
    by_cases h : v.id ∈ controlled <;> simp [h]

/-- Witness for C7: on a two-vehicle road with vehicle `0` controlled, the
step leaves `0` enabled, disables `1`, and preserves identities. -/
theorem fast_variant_collisions_witness :
    (RoadVehicle.mk 1 false).check_collisions = false ∧
    (RoadVehicle.mk 0 true).check_collisions = true ∧
    (disable_uncontrolled [⟨0, true⟩, ⟨1, true⟩] [0]).map RoadVehicle.id = [0, 1] := by
  have h := fast_variant_collisions [⟨0, true⟩, ⟨1, true⟩] [0] (by decide)
  exact ⟨h.1 ⟨1, false⟩ (by decide) (by decide),
    h.2.1 ⟨0, true⟩ (by decide) (by decide),
    (h.2.2).trans (by decide)⟩

/-- Counterexample to claim C8 as stated (a missing key fails fast with a
configuration error at construction): neither failure mode exists.  With the
`speed_reward` weight key absent, the combination does not fail at all — the
missing weight is silently replaced by the `config.get` default `0`, both
unnormalized (`-55/2`, differing from the full-default-weight value by exactly
the dropped `25 * (3/4)` term) and through the bracket-read normalization
(`45/101`).  With the `collision_reward` key absent and normalization on, the
computation does fail, but as a `KeyError` at the line-114 bracket read during
the first reward computation mid-episode, not as a construction-time error. -/
theorem missing_key_no_failure :
    missing_speed_weights ("speed_reward") = none ∧
    rewardSum missing_speed_weights (RewardBreakdown.toList ⟨3/4, 1, 1/2, 1, 1⟩) = -55/2 ∧
    rewardSum default_config.weightOf (RewardBreakdown.toList ⟨3/4, 1, 1/2, 1, 1⟩) =
      -55/2 + 25 * (3/4) ∧
    dict_reward missing_speed_weights true ⟨3/4, 1, 1/2, 1, 1⟩ = some (45/101) ∧
    missing_collision_weights ("collision_reward") = none ∧
    dict_reward missing_collision_weights true ⟨3/4, 1, 1/2, 1, 1⟩ = none := by
  refine ⟨by decide, ?_, ?_, ?_, by decide, ?_⟩ <;>
    · simp +decide only [dict_reward, rewardSum, missing_speed_weights,
        missing_collision_weights, Config.weightOf, default_config, RewardBreakdown.toList,
        List.map_cons, List.map_nil, List.sum_cons, List.sum_nil, Option.getD_some,
        Option.getD_none, Option.bind_eq_bind, Option.none_bind, Option.some_bind,
        reduceIte, lmap]
      try norm_num

/-- Claim C8 as amended: no construction-time validation exists.  A missing
reward-term weight key is silent for every read that goes through
`config.get(name, 0)`: the weighted sum computes exactly as if the key were
present with value `0`; without normalization the combination therefore always
returns a value.  But the normalization bounds are bracket reads: with
normalization on and all three bound keys present the combination succeeds
with the usual `lmap`, while a configuration missing `collision_reward` makes
the first reward computation raise `KeyError` mid-episode.  In practice no key
is missing because `default_config` supplies all five weight keys. -/
theorem missing_key_silent_default (w : String → Option ℚ) (name : String)
    (hw : w name = none) (items : List (String × ℚ)) :
    (rewardSum w items = rewardSum (fun n => if n = name then some 0 else w n) items) ∧
    (∀ b : RewardBreakdown, dict_reward w false b = some (rewardSum w b.toList)) ∧
    (∀ (b : RewardBreakdown) (lo hs rl : ℚ), w ("collision_reward") = some lo →
      w ("high_speed_reward") = some hs → w ("right_lane_reward") = some rl →
      dict_reward w true b = lmap (rewardSum w b.toList) (lo, hs + rl) (0, 1)) ∧
    (∀ b : RewardBreakdown, name = "collision_reward" → dict_reward w true b = none) ∧
    (∀ k ∈ ["speed_reward", "collision_reward", "safe_distance_reward",
            "on_road_reward", "torque_reward"],
      (default_config.weightOf k).isSome = true) := by
  refine ⟨?_, ?_, ?_, ?_, by decide⟩
  · unfold rewardSum
    induction items with
    | nil => rfl
    | cons p t ih =>
      simp only [List.map_cons, List.sum_cons, ih]
      congr 1
      by_cases h : p.1 = name
      · rw [if_pos h, h, hw]
        rfl
      · rw [if_neg h]
  · intro b
    simp [dict_reward]
  · intro b lo hs rl h1 h2 h3
    simp only [dict_reward, h1, h2, h3, if_true, Option.bind_eq_bind, Option.some_bind]
  · intro b hname
    subst hname
    simp only [dict_reward, hw, if_true, Option.bind_eq_bind, Option.none_bind]

/-- Witness for the amended C8: the silent-zero behaviour at the concrete
weight table missing `speed_reward`, and the mid-episode `KeyError` at the one
missing `collision_reward` with normalization on. -/
theorem missing_key_silent_default_witness :
    (rewardSum missing_speed_weights [("speed_reward", 3/4)] =
      rewardSum (fun n => if n = "speed_reward" then some 0 else missing_speed_weights n)
        [("speed_reward", 3/4)]) ∧
    dict_reward missing_collision_weights true ⟨3/4, 1, 1/2, 1, 1⟩ = none :=
  ⟨(missing_key_silent_default missing_speed_weights ("speed_reward") (by decide)
      [("speed_reward", 3/4)]).1,
   (missing_key_silent_default missing_collision_weights ("collision_reward") (by decide)
      []).2.2.2.1 ⟨3/4, 1, 1/2, 1, 1⟩ rfl⟩

/-- Claim C9: in a fixed environment state the reward breakdown and the scalar
reward are independent of the action argument — the body reads the stored
`self.action`, never the parameter. -/
theorem rewards_ignore_action (cfg : Config) (s : EnvState) (a₁ a₂ : ℚ) :
    _rewards cfg s a₁ = _rewards cfg s a₂ ∧ _reward cfg s a₁ = _reward cfg s a₂ :=
  ⟨rfl, rfl⟩

/-- Claim C10: for nonzero speeds the moment of inertia collapses, in exact
arithmetic, to `wheel_mass * wheel_radius ^ 2` — the speed cancels — so the
pre-clip total torque depends only on the commanded acceleration and the fixed
constants, not on the ego's speed. -/
theorem torque_speed_independent (s₁ s₂ a : ℚ) (h₁ : s₁ ≠ 0) (h₂ : s₂ ≠ 0) :
    moment_of_inertia s₁ = some (wheel_mass * wheel_radius ^ 2) ∧
    total_torque s₁ a = total_torque s₂ a := by
  have key : ∀ s : ℚ, s ≠ 0 → moment_of_inertia s = some (wheel_mass * wheel_radius ^ 2) := by
    intro s hs
    unfold moment_of_inertia wheel_mass wheel_radius
    rw [if_neg (by simp [div_eq_zero_iff, hs])]
    congr 1
    field_simp
    ring
  refine ⟨key s₁ h₁, ?_⟩
  unfold total_torque
  rw [key s₁ h₁, key s₂ h₂]

/-- Witness for C10: the cancellation at speeds `1` and `2`. -/
theorem torque_speed_independent_witness :
    moment_of_inertia 1 = some (wheel_mass * wheel_radius ^ 2) ∧
    total_torque 1 0 = total_torque 2 0 :=
  torque_speed_independent 1 2 0 one_ne_zero two_ne_zero
